import Mathlib

/-!
Verification of the GitForge terminal routing layer and core engine contract.

The routing layer lives in gitforge/src/components/TerminalPanel.vue: the
component keeps a bounded output log (append), a voice toggle (toggleVoice)
and the command router (sendCommand).  JavaScript strings are embedded as
lists of characters; the JavaScript primitives used by the component
(String.prototype.trim, String.prototype.startsWith, Array.prototype.slice
with a negative index) are embedded below as jsTrim, jsStartsWith and
jsSliceLast.

The goal-execution engine (goal store, cancel_goal, SystemEvent validation)
is declared by ant-core/README.md and specified in the design document but
its implementation is not part of the repository; those parts are modelled
from the spec and are marked as such in their doc comments.
-/

namespace GitForge

/-- A JavaScript string value, embedded as its list of characters. -/
abbrev JsString := List Char

/-- Whitespace as stripped by JavaScript String.prototype.trim
(space, tab, carriage return, line feed). -/
def isJsSpace (c : Char) : Bool := c.isWhitespace

/-- JavaScript String.prototype.trim: strip leading and trailing whitespace. -/
def jsTrim (s : JsString) : JsString :=
  ((s.dropWhile isJsSpace).reverse.dropWhile isJsSpace).reverse

/-- JavaScript String.prototype.startsWith: first argument is the receiver,
second the searched prefix candidate. -/
def jsStartsWith : JsString → JsString → Bool
  | _, [] => true
  | [], _ :: _ => false
  | c :: cs, p :: ps => c == p && jsStartsWith cs ps

/-- JavaScript Array.prototype.slice with argument -n (n positive):
the last min(n, length) elements of the array. -/
def jsSliceLast (n : Nat) (l : List α) : List α := l.drop (l.length - n)

/-- The literal prefix tested by sendCommand: cmd.startsWith('git '). -/
def gitMarker : JsString := "git ".data

/-- State of the TerminalPanel.vue component: the refs isListening,
activeAgent, inputLine and output. -/
structure PanelState where
  isListening : Bool
  activeAgent : JsString
  inputLine : JsString
  output : List JsString
deriving DecidableEq, Repr

/-- Initial component state: ref('local'), ref(''), and the ready banner. -/
def initialState : PanelState :=
  { isListening := false
    activeAgent := "local".data
    inputLine := []
    output := ["GitForge Terminal Terminator ready".data] }

/-- The append closure of TerminalPanel.vue:
output.value = [...output.value.slice(-120), line]. -/
def appendLine (out : List JsString) (line : JsString) : List JsString :=
  jsSliceLast 120 out ++ [line]

/-- The Git-route message appended by sendCommand. -/
def gitRouteMsg (agent : JsString) : JsString :=
  "⚡ libgit2 route queued via MCP (".data ++ agent ++ ")".data

/-- The agent-route message appended by sendCommand. -/
def agentRouteMsg (agent : JsString) : JsString :=
  "🤖 agent(".data ++ agent ++ ") route queued via MCP".data

/-- The echo line appended by sendCommand: the template literal of
'$ ' followed by the trimmed command. -/
def echoLine (cmd : JsString) : JsString := "$ ".data ++ cmd

/-- The toggleVoice handler of TerminalPanel.vue. -/
def toggleVoice (s : PanelState) : PanelState :=
  let listening := !s.isListening
  { s with
    isListening := listening
    output := appendLine s.output
      (if listening then "🔴 Voice capture enabled".data
       else "🔇 Voice capture disabled".data) }

/-- The sendCommand handler of TerminalPanel.vue: trim the input; return
unchanged when the trimmed command is empty; otherwise echo the command,
append exactly one route message chosen by the 'git ' prefix test, and
clear the input line. -/
def sendCommand (s : PanelState) : PanelState :=
  let cmd := jsTrim s.inputLine
  if cmd = [] then s
  else
    let out1 := appendLine s.output (echoLine cmd)
    let out2 :=
      if jsStartsWith cmd gitMarker then appendLine out1 (gitRouteMsg s.activeAgent)
      else appendLine out1 (agentRouteMsg s.activeAgent)
    { s with output := out2, inputLine := [] }

/-- A Route Decision (spec §3): Git route with arguments, or Agent route
with the selected agent identifier and arguments. -/
inductive RouteDecision where
  | git (args : JsString)
  | agent (agentId : JsString) (args : JsString)
deriving DecidableEq, Repr

/-- Modelled from the spec: the Router's classification (§4.4).  The branch
structure (trim, rejection of the empty command, the case-sensitive
'git ' prefix test) mirrors sendCommand in TerminalPanel.vue; the argument
fields of the produced Route Decision follow §4.4 because the backend
dispatch that consumes them is not part of the repository: a Git route
carries the remainder after the prefix, an Agent route carries the selected
agent and the full trimmed line. -/
def classify (text agent : JsString) : Option RouteDecision :=
  let cmd := jsTrim text
  if cmd = [] then none
  else if jsStartsWith cmd gitMarker then
    some (RouteDecision.git (cmd.drop gitMarker.length))
  else some (RouteDecision.agent agent cmd)

theorem jsStartsWith_append (p s : JsString) : jsStartsWith (p ++ s) p = true := by
  induction p with
  | nil => cases s <;> rfl
  | cons c cs ih => simp [jsStartsWith, ih]

/-- Claim C1: an input line whose trimmed text starts with the literal
prefix 'git ' is classified as a Git route whose arguments are the
remainder of the trimmed line after the prefix; the trimmed text is written
as the prefix followed by that remainder. -/
theorem classify_git_route (text agent rest : JsString)
    (h : jsTrim text = gitMarker ++ rest) :
    classify text agent = some (RouteDecision.git rest) := by
  have hne : gitMarker ++ rest ≠ [] := by simp [gitMarker]
  simp only [classify, h]
  rw [if_neg hne, if_pos (jsStartsWith_append gitMarker rest)]
  simp [List.drop_left]

/-- Claim C1 witness, Scenario A: input "git status" with selected agent
claude yields a Git route with arguments "status". -/
theorem classify_git_route_status :
    classify "git status".data "claude".data = some (RouteDecision.git "status".data) :=
  classify_git_route "git status".data "claude".data "status".data (by decide)

/-- Claim C2: an input line with non-empty trimmed text that does not start
with the prefix 'git ' is classified as an Agent route carrying the
currently selected agent identifier and the full trimmed line. -/
theorem classify_agent_route (text agent : JsString)
    (h1 : jsTrim text ≠ [])
    (h2 : jsStartsWith (jsTrim text) gitMarker = false) :
    classify text agent = some (RouteDecision.agent agent (jsTrim text)) := by
  simp only [classify]
  rw [if_neg h1, h2]
  simp

/-- Claim C2 witness, Scenario B: input "explain this diff" with selected
agent claude yields an Agent route with agent claude and the full line. -/
theorem classify_agent_route_diff :
    classify "explain this diff".data "claude".data
      = some (RouteDecision.agent "claude".data "explain this diff".data) :=
  classify_agent_route "explain this diff".data "claude".data (by decide) (by decide)

/-- Claim C3: a line whose trimmed text is empty is rejected: sendCommand
leaves the whole component state (output included) unchanged, and the
router produces no Route Decision, hence no goal and no event. -/
theorem blank_input_rejected (s : PanelState) (h : jsTrim s.inputLine = []) :
    sendCommand s = s ∧ classify s.inputLine s.activeAgent = none := by
  constructor
  · simp [sendCommand, h]
  · simp [classify, h]

/-- Claim C3 witness, Scenario C: an all-whitespace input is rejected. -/
theorem blank_input_rejected_ws :
    sendCommand { initialState with inputLine := "   ".data }
        = { initialState with inputLine := "   ".data }
      ∧ classify { initialState with inputLine := "   ".data }.inputLine
          { initialState with inputLine := "   ".data }.activeAgent = none :=
  blank_input_rejected { initialState with inputLine := "   ".data } (by decide)

/-- Claim C4: routing is pure and deterministic: identical text and
identical selected agent always yield the identical Route Decision. -/
theorem classify_deterministic (t1 t2 a1 a2 : JsString)
    (h1 : t1 = t2) (h2 : a1 = a2) : classify t1 a1 = classify t2 a2 := by
  rw [h1, h2]

/-- Claim C4 witness: two classification runs on the pair
("git status", "claude") agree. -/
theorem classify_deterministic_run :
    classify "git status".data "claude".data = classify "git status".data "claude".data :=
  classify_deterministic "git status".data "git status".data
    "claude".data "claude".data rfl rfl

/-- Modelled from the spec: goal status (§3), one of
Pending, Running, Completed, Failed, Cancelled; the engine implementing it
is declared by ant-core/README.md but not part of the repository. -/
inductive GoalStatus where
  | pending
  | running
  | completed
  | failed
  | cancelled
deriving DecidableEq, Repr

/-- Modelled from the spec: Completed, Failed and Cancelled are the
terminal statuses (§3, §4.2). -/
def GoalStatus.isTerminal : GoalStatus → Bool
  | .completed => true
  | .failed => true
  | .cancelled => true
  | _ => false

/-- Modelled from the spec: the goal state machine of §4.2.
Pending --start--> Running; Running --complete--> Completed;
Running --fail--> Failed; Pending or Running --cancel--> Cancelled;
no transition out of a terminal state. -/
def canStep : GoalStatus → GoalStatus → Bool
  | .pending, .running => true
  | .running, .completed => true
  | .running, .failed => true
  | .pending, .cancelled => true
  | .running, .cancelled => true
  | _, _ => false

/-- Modelled from the spec: an observed status history of one goal: it
begins at Pending (goals are inserted as Pending, §4.2) and every
consecutive pair is a permitted transition of the state machine. -/
def ValidTrace (tr : List GoalStatus) : Prop :=
  tr.head? = some GoalStatus.pending
    ∧ List.Chain' (fun a b => canStep a b = true) tr

theorem canStep_into_pending (s : GoalStatus) :
    canStep s GoalStatus.pending = false := by
  cases s <;> rfl

theorem canStep_of_terminal (s t : GoalStatus) (h : s.isTerminal = true) :
    canStep s t = false := by
  cases s <;> simp [GoalStatus.isTerminal] at h <;> cases t <;> rfl

/-- Claim C5: along every valid status history of a goal, Pending occurs
only at the first position, a terminal status occurs only at the last
position (hence at most once, with nothing after it), no transition leaves
a terminal state, and Cancelled never transitions to Completed. -/
theorem goal_status_monotonic (tr : List GoalStatus) (h : ValidTrace tr) :
    (∀ i (hi : i < tr.length), tr.get ⟨i, hi⟩ = GoalStatus.pending → i = 0)
      ∧ (∀ i (hi : i < tr.length),
          (tr.get ⟨i, hi⟩).isTerminal = true → i = tr.length - 1)
      ∧ (∀ s t : GoalStatus, s.isTerminal = true → canStep s t = false)
      ∧ canStep GoalStatus.cancelled GoalStatus.completed = false := by
  obtain ⟨hhead, hchain⟩ := h
  rw [List.chain'_iff_get] at hchain
  refine ⟨?_, ?_, canStep_of_terminal, rfl⟩
  · intro i hi hp
    by_contra hne
    obtain ⟨j, rfl⟩ : ∃ j, i = j + 1 := ⟨i - 1, by omega⟩
    have hstep := hchain j (by omega)
    rw [hp] at hstep
    rw [canStep_into_pending] at hstep
    exact Bool.noConfusion hstep
  · intro i hi ht
    by_contra hne
    have hstep := hchain i (by omega)
    rw [canStep_of_terminal _ _ ht] at hstep
    exact Bool.noConfusion hstep

/-- Claim C5 witness: the monotonicity facts instantiated on the concrete
history Pending, Running, Completed. -/
theorem goal_status_monotonic_run :
    (∀ i (hi : i < ([GoalStatus.pending, GoalStatus.running,
          GoalStatus.completed]).length),
        ([GoalStatus.pending, GoalStatus.running,
          GoalStatus.completed]).get ⟨i, hi⟩ = GoalStatus.pending → i = 0)
      ∧ (∀ i (hi : i < ([GoalStatus.pending, GoalStatus.running,
            GoalStatus.completed]).length),
          (([GoalStatus.pending, GoalStatus.running,
            GoalStatus.completed]).get ⟨i, hi⟩).isTerminal = true
            → i = ([GoalStatus.pending, GoalStatus.running,
                GoalStatus.completed]).length - 1)
      ∧ (∀ s t : GoalStatus, s.isTerminal = true → canStep s t = false)
      ∧ canStep GoalStatus.cancelled GoalStatus.completed = false :=
  goal_status_monotonic
    [GoalStatus.pending, GoalStatus.running, GoalStatus.completed]
    ⟨rfl, List.chain'_cons.mpr ⟨rfl,
      List.chain'_cons.mpr ⟨rfl, List.chain'_singleton _⟩⟩⟩

/-- Modelled from the spec: the backend kind discriminator of a task
(§3, §9): git or agent. -/
inductive BackendKind where
  | git
  | agent
deriving DecidableEq, Repr

/-- Modelled from the spec: the task descriptor of a goal (§3): backend
kind, agent identifier when applicable, raw command text, parsed
arguments. -/
structure TaskDescriptor where
  kind : BackendKind
  agentId : Option JsString
  rawText : JsString
  args : JsString
deriving DecidableEq, Repr

/-- Modelled from the spec: a goal record (§3): identifier, task, status,
timestamps, and a result present only for Completed or Failed goals. -/
structure Goal where
  goalId : Nat
  task : TaskDescriptor
  status : GoalStatus
  createdAt : Nat
  updatedAt : Nat
  result : Option JsString
deriving DecidableEq, Repr

/-- Modelled from the spec: the goal store, the authoritative map from
goal identifier to goal (§4.2). -/
def GoalStore := Nat → Option Goal

/-- Modelled from the spec: the outcome of cancel_goal (§4.5, §6): the
goal snapshot on success, or NotFound for an unknown identifier. -/
inductive CancelOutcome where
  | ok (snapshot : Goal)
  | notFound
deriving DecidableEq, Repr

/-- Modelled from the spec: cancel_goal (§4.2, §4.5): NotFound when the
identifier is unknown; when the goal is already terminal, a no-op that
returns the existing terminal snapshot without error; otherwise the goal
transitions to Cancelled and the updated snapshot is returned. -/
def cancelGoal (store : GoalStore) (gid : Nat) : CancelOutcome × GoalStore :=
  match store gid with
  | none => (CancelOutcome.notFound, store)
  | some g =>
    if g.status.isTerminal then (CancelOutcome.ok g, store)
    else
      let g2 : Goal := { g with status := GoalStatus.cancelled }
      (CancelOutcome.ok g2, fun gid2 => if gid2 = gid then some g2 else store gid2)

theorem cancel_permitted_from_nonterminal (s : GoalStatus)
    (h : s.isTerminal = false) : canStep s GoalStatus.cancelled = true := by
  cases s <;> simp [GoalStatus.isTerminal] at h <;> rfl

/-- Claim C6: cancel_goal is idempotent and atomic on terminal goals: on a
goal already terminal it returns the existing terminal snapshot without
error and leaves the store untouched, and a second cancel_goal on the same
identifier returns exactly the outcome and store of the first, so no state
regression is possible. -/
theorem cancelGoal_idempotent (store : GoalStore) (gid : Nat) :
    (∀ g : Goal, store gid = some g → g.status.isTerminal = true
        → cancelGoal store gid = (CancelOutcome.ok g, store))
      ∧ cancelGoal (cancelGoal store gid).2 gid = cancelGoal store gid := by
  constructor
  · intro g hg ht
    simp [cancelGoal, hg, ht]
  · cases hg : store gid with
    | none => simp [cancelGoal, hg]
    | some g =>
      by_cases ht : g.status.isTerminal = true
      · simp [cancelGoal, hg, ht]
      · have hterm : g.status.isTerminal = false := by simpa using ht
        have h1 : cancelGoal store gid
            = (CancelOutcome.ok { g with status := GoalStatus.cancelled },
                fun gid2 => if gid2 = gid then
                  some { g with status := GoalStatus.cancelled } else store gid2) := by
          simp [cancelGoal, hg, hterm]
        rw [h1]
        simp [cancelGoal, GoalStatus.isTerminal]

/-- A concrete store holding one completed goal, for the witnesses. -/
def demoGoal : Goal :=
  { goalId := 1
    task :=
      { kind := BackendKind.git
        agentId := some "claude".data
        rawText := "git status".data
        args := "status".data }
    status := GoalStatus.completed
    createdAt := 10
    updatedAt := 20
    result := some "ok".data }

/-- The store for the cancel_goal witness: goal 1 is terminal. -/
def demoStore : GoalStore := fun gid => if gid = 1 then some demoGoal else none

/-- Claim C6 witness: cancelling terminal goal 1 returns its snapshot and
leaves the store unchanged, and a second cancel repeats the first. -/
theorem cancelGoal_idempotent_run :
    cancelGoal demoStore 1 = (CancelOutcome.ok demoGoal, demoStore)
      ∧ cancelGoal (cancelGoal demoStore 1).2 1 = cancelGoal demoStore 1 :=
  ⟨(cancelGoal_idempotent demoStore 1).1 demoGoal rfl rfl,
    (cancelGoal_idempotent demoStore 1).2⟩

/-- The schema version declared by ant-core/README.md:
SYSTEM_EVENT_SCHEMA_VERSION = 1. -/
def SYSTEM_EVENT_SCHEMA_VERSION : Nat := 1

/-- Modelled from the spec: a raw SystemEvent as seen by a consumer (§3):
schema version, optional subject goal, a variant tag that may be unknown to
the consumer, and variant-specific payload fields that may likewise be
unknown. -/
structure RawEvent where
  schema_version : Nat
  goalId : Option Nat
  variant : JsString
  payload : List (JsString × JsString)
deriving DecidableEq, Repr

/-- Modelled from the spec: the pure validation function of §4.1: given a
raw event and a consumer's supported major version, accept or reject,
rejecting only on major-version mismatch and never on an unknown variant
or unknown field. -/
def validateEvent (e : RawEvent) (consumerMajor : Nat) : Bool :=
  e.schema_version == consumerMajor

/-- Claim C7: validation accepts exactly when the event's schema version
equals the consumer's supported major version, whatever the variant and
payload; in particular any event stamped with the engine's current schema
version 1 is accepted by a version-1 consumer, including one that does not
recognize the variant. -/
theorem validateEvent_major_only (e : RawEvent) (m : Nat) :
    (validateEvent e m = true ↔ e.schema_version = m)
      ∧ validateEvent { e with schema_version := SYSTEM_EVENT_SCHEMA_VERSION }
          SYSTEM_EVENT_SCHEMA_VERSION = true := by
  constructor
  · simp [validateEvent]
  · simp [validateEvent]

/-- Claim C8: the output log is bounded with a drop-oldest policy: every
append keeps at most 121 lines, namely the new line preceded by at most
the 120 most recent previous lines in their original relative order (a
suffix of the previous log), and every component operation (sendCommand,
toggleVoice) as well as the initial state respects the bound. -/
theorem output_log_bounded (out : List JsString) (line : JsString)
    (s : PanelState) (hs : s.output.length ≤ 121) :
    (appendLine out line).length ≤ 121
      ∧ jsSliceLast 120 out <:+ out
      ∧ (jsSliceLast 120 out).length ≤ 120
      ∧ appendLine out line = jsSliceLast 120 out ++ [line]
      ∧ (sendCommand s).output.length ≤ 121
      ∧ (toggleVoice s).output.length ≤ 121
      ∧ initialState.output.length ≤ 121 := by
  have hbnd : ∀ (o : List JsString) (l : JsString), (appendLine o l).length ≤ 121 := by
    intro o l
    simp [appendLine, jsSliceLast]
    omega
  refine ⟨hbnd out line, List.drop_suffix _ _, ?_, rfl, ?_, ?_, by decide⟩
  · simp [jsSliceLast]
    omega
  · by_cases h : jsTrim s.inputLine = []
    · simpa [sendCommand, h] using hs
    · by_cases hgit : jsStartsWith (jsTrim s.inputLine) gitMarker = true
      · simp only [sendCommand, h, hgit]
        simpa using hbnd _ _
      · simp only [sendCommand, h, hgit]
        simpa using hbnd _ _
  · simp only [toggleVoice]
    simpa using hbnd _ _

/-- Claim C8 witness: the bound facts instantiated at the empty log, the
line "x" and the initial component state. -/
theorem output_log_bounded_run :
    (appendLine [] "x".data).length ≤ 121
      ∧ jsSliceLast 120 ([] : List JsString) <:+ ([] : List JsString)
      ∧ (jsSliceLast 120 ([] : List JsString)).length ≤ 120
      ∧ appendLine [] "x".data = jsSliceLast 120 ([] : List JsString) ++ ["x".data]
      ∧ (sendCommand initialState).output.length ≤ 121
      ∧ (toggleVoice initialState).output.length ≤ 121
      ∧ initialState.output.length ≤ 121 :=
  output_log_bounded [] "x".data initialState (by decide)

/-- Claim C9 counterexample: at the initial state, whose input line is the
empty string, sendCommand leaves the input equal to the empty string even
though the trimmed input was empty, so the claimed equivalence "the input
is cleared to the empty string iff the trimmed input was non-empty" fails
as stated. -/
theorem input_clear_iff_fails :
    ¬(((sendCommand initialState).inputLine = [])
        ↔ jsTrim initialState.inputLine ≠ []) := by decide

/-- Claim C9 amended: after sendCommand the input line is set to the empty
string when the trimmed input is non-empty and is left unchanged (retaining
its whitespace) when the trimmed input is empty; hence the final input is
the empty string exactly when the trimmed input was non-empty or the input
was already empty. -/
theorem sendCommand_input_clearing (s : PanelState) :
    (sendCommand s).inputLine = (if jsTrim s.inputLine = [] then s.inputLine else [])
      ∧ ((sendCommand s).inputLine = []
          ↔ (jsTrim s.inputLine ≠ [] ∨ s.inputLine = [])) := by
  by_cases h : jsTrim s.inputLine = []
  · constructor
    · simp [sendCommand, h]
    · simp [sendCommand, h]
  · constructor
    · simp [sendCommand, h]
    · simp [sendCommand, h]

theorem routeMsgs_distinct (a : JsString) : gitRouteMsg a ≠ agentRouteMsg a := by
  intro hEq
  have hlen := congrArg List.length hEq
  simp [gitRouteMsg, agentRouteMsg] at hlen
  omega

theorem appendLine_twice (out : List JsString) (l1 l2 : JsString) :
    ∃ keep, keep <:+ out ∧ appendLine (appendLine out l1) l2 = keep ++ [l1, l2] := by
  have hle : (appendLine out l1).length - 120 ≤ (jsSliceLast 120 out).length := by
    simp only [appendLine, jsSliceLast, List.length_append, List.length_drop,
      List.length_cons, List.length_nil]
    omega
  refine ⟨(jsSliceLast 120 out).drop ((appendLine out l1).length - 120),
    (List.drop_suffix _ _).trans (List.drop_suffix _ _), ?_⟩
  calc appendLine (appendLine out l1) l2
      = (jsSliceLast 120 out ++ [l1]).drop ((appendLine out l1).length - 120) ++ [l2] := rfl
    _ = ((jsSliceLast 120 out).drop ((appendLine out l1).length - 120) ++ [l1]) ++ [l2] := by
        rw [List.drop_append_of_le_length hle]
    _ = (jsSliceLast 120 out).drop ((appendLine out l1).length - 120) ++ [l1, l2] := by
        simp

/-- Claim C10: for every accepted (non-empty trimmed) command, sendCommand
appends exactly two lines in a fixed order to a retained suffix of the
previous output: first the echo line of the trimmed command, then exactly
one route-decision line chosen by the 'git ' prefix test, and the Git and
agent route messages are never equal, so each echo immediately precedes
its single route line. -/
theorem sendCommand_echo_then_route (s : PanelState) (h : jsTrim s.inputLine ≠ []) :
    (∃ keep, keep <:+ s.output
        ∧ (sendCommand s).output
            = keep ++ [echoLine (jsTrim s.inputLine),
                if jsStartsWith (jsTrim s.inputLine) gitMarker
                then gitRouteMsg s.activeAgent
                else agentRouteMsg s.activeAgent])
      ∧ gitRouteMsg s.activeAgent ≠ agentRouteMsg s.activeAgent := by
  refine ⟨?_, routeMsgs_distinct s.activeAgent⟩
  have hout : (sendCommand s).output
      = appendLine (appendLine s.output (echoLine (jsTrim s.inputLine)))
          (if jsStartsWith (jsTrim s.inputLine) gitMarker
           then gitRouteMsg s.activeAgent
           else agentRouteMsg s.activeAgent) := by
    by_cases hgit : jsStartsWith (jsTrim s.inputLine) gitMarker = true
    · simp [sendCommand, h, hgit]
    · simp [sendCommand, h, hgit]
  obtain ⟨keep, hk, he⟩ :=
    appendLine_twice s.output (echoLine (jsTrim s.inputLine))
      (if jsStartsWith (jsTrim s.inputLine) gitMarker
       then gitRouteMsg s.activeAgent
       else agentRouteMsg s.activeAgent)
  exact ⟨keep, hk, hout.trans he⟩

/-- The component state just before the user submits "git status". -/
def gitCmdState : PanelState := { initialState with inputLine := "git status".data }

/-- Claim C10 witness: the echo-then-route shape instantiated at the
concrete state whose pending input is "git status". -/
theorem sendCommand_echo_then_route_run :
    (∃ keep, keep <:+ gitCmdState.output
        ∧ (sendCommand gitCmdState).output
            = keep ++ [echoLine (jsTrim gitCmdState.inputLine),
                if jsStartsWith (jsTrim gitCmdState.inputLine) gitMarker
                then gitRouteMsg gitCmdState.activeAgent
                else agentRouteMsg gitCmdState.activeAgent])
      ∧ gitRouteMsg gitCmdState.activeAgent ≠ agentRouteMsg gitCmdState.activeAgent :=
  sendCommand_echo_then_route gitCmdState (by decide)

end GitForge
